import Mathlib

/-!
Shallow embedding of the Glucose Analytics Engine of the diabetes-management
application (source files `App.py` and `app.py`).

Numbers: glucose values are integers (mg/dL); all derived statistics are
modelled exactly in `ℚ` (the Python source computes with IEEE floats via
numpy/pandas; we model ideal real arithmetic).  The standard deviation
`np.std(values)` is the square root of the population variance, an
irrational number in general; we therefore carry the (rational) variance
through the embedding and translate every comparison `std > c` into the
equivalent `variance > c^2` (both sides are nonnegative), and we compute
the 1-decimal rounding of the square root exactly with `Nat.sqrt`.
Bridging lemmas relate these encodings to `Real.sqrt`.
-/

namespace GlucoseEngine

/-- A glucose reading as stored in `diabetes_data.json`:
`{timestamp, value, notes}`.  Timestamps are instants at second precision,
modelled as whole seconds on an absolute time line (`Int`); values are
integers in mg/dL. -/
structure Reading where
  timestamp : Int
  value : Int
  notes : String := ""
  deriving Repr, DecidableEq

/-- The dictionary returned by the pattern analyzers.  On empty input the
Python dict carries no `mean`/`std` keys, modelled as `none`. -/
structure AnalysisResult where
  risk_level : String
  mean : Option ℚ := none
  std : Option ℚ := none
  recommendations : List String
  deriving Repr, DecidableEq

/-- Python slice `xs[-n:]`: the last `n` elements (all of them if fewer). -/
def lastN {α : Type _} (n : Nat) (xs : List α) : List α :=
  xs.drop (xs.length - n)

/-- `np.mean(values)`: the arithmetic mean.  (Only used on non-empty lists;
on `[]` the `ℚ` division-by-zero convention yields `0`.) -/
def listMean (values : List ℚ) : ℚ :=
  values.sum / values.length

/-- The square of `np.std(values)`: the population variance (numpy default
`ddof = 0`, divide by `N`).  `np.std values = Real.sqrt (popVariance values)`. -/
def popVariance (values : List ℚ) : ℚ :=
  (values.map (fun x => (x - listMean values) ^ 2)).sum / values.length

/-- The square of `pandas Series.std(values)`: the sample variance
(pandas default `ddof = 1`, divide by `N - 1`).  For `N = 1` pandas yields
NaN; here the `ℚ` division-by-zero convention yields `0` (no claim touches
that case). -/
def sampleVariance (values : List ℚ) : ℚ :=
  (values.map (fun x => (x - listMean values) ^ 2)).sum / ((values.length : ℚ) - 1)

/-- Round to the nearest integer, ties to even: the rounding used by
Python's built-in `round` (banker's rounding), applied here to exact
rationals. -/
def roundEven (y : ℚ) : Int :=
  if y - ⌊y⌋ < 1/2 then ⌊y⌋
  else if 1/2 < y - ⌊y⌋ then ⌊y⌋ + 1
  else if ⌊y⌋ % 2 = 0 then ⌊y⌋ else ⌊y⌋ + 1

/-- Python `round(x, 1)`: round to one decimal place, ties to even. -/
def round1 (x : ℚ) : ℚ :=
  (roundEven (10 * x) : ℚ) / 10

/-- Floor of the square root of a nonnegative rational:
`⌊√(p/q)⌋ = ⌊√(p*q)⌋ / q` (integer division), computable via `Nat.sqrt`. -/
def ratFloorSqrt (x : ℚ) : Nat :=
  Nat.sqrt (x.num.toNat * x.den) / x.den

/-- Python `round(sqrt v, 1)` computed exactly from the variance `v`:
with `n = ⌊10·√v⌋ = ⌊√(100·v)⌋`, the value `10·√v` is below, above or at
the midpoint `n + 1/2` according as `400·v` compares to `(2n+1)^2`, and at
the midpoint ties go to even. -/
def stdRound1 (v : ℚ) : ℚ :=
  let n := ratFloorSqrt (100 * v)
  if 400 * v < ((2 * n + 1 : ℕ) : ℚ) ^ 2 then (n : ℚ) / 10
  else if ((2 * n + 1 : ℕ) : ℚ) ^ 2 < 400 * v then ((n : ℚ) + 1) / 10
  else if n % 2 = 0 then (n : ℚ) / 10 else ((n : ℚ) + 1) / 10

/-- Line `values = [r['value'] for r in readings[-10:]]`, shared verbatim by
both analyzer variants: the values of (at most) the last 10 readings. -/
def selectedValues (readings : List Reading) : List ℚ :=
  (lastN 10 readings).map (fun r => (r.value : ℚ))

namespace DiabetesAI

/-- Message of `App.py` line 46. -/
def mealPlanMsg : String :=
  "Your blood sugar is running high. Consider reviewing your meal plan."

/-- Message of `App.py` line 48. -/
def variabilityMsg : String :=
  "Your blood sugar shows high variability. Try to maintain consistent meal times."

/-- Message of `App.py` line 50. -/
def lowSugarMsg : String :=
  "Your blood sugar is running low. Consider adjusting your medication."

/-- Message of `App.py` line 53 (positive-reinforcement fallback). -/
def goodControlMsg : String :=
  "Your blood sugar control looks good! Keep up the good work."

/-- Message of `App.py` line 32 (empty-input short circuit). -/
def noDataMsg : String := "Not enough data for analysis"

/-- Lines 44-53 of `DiabetesAI.analyze_glucose_pattern`, factored out so the
theorems can speak about them: the three appends guarded by `mean > 180`,
`std > 40` (encoded as `var > 40^2 = 1600`, since `std = √var`) and
`mean < 70`, then the fallback when none fired. -/
def recsApp (mean var : ℚ) : List String :=
  let recommendations :=
    (if mean > 180 then [mealPlanMsg] else []) ++
    (if var > 1600 then [variabilityMsg] else []) ++
    (if mean < 70 then [lowSugarMsg] else [])
  if recommendations = [] then [goodControlMsg] else recommendations

/-- `DiabetesAI.analyze_glucose_pattern` (`App.py` lines 30-60). -/
def analyze_glucose_pattern (readings : List Reading) : AnalysisResult :=
  if readings = [] then
    { risk_level := "unknown", recommendations := [noDataMsg] }
  else
    let values := selectedValues readings
    let mean := listMean values
    let var := popVariance values
    let risk_level :=
      if mean > 180 then "high" else if mean > 140 then "moderate" else "low"
    { risk_level := risk_level
      mean := some (round1 mean)
      std := some (stdRound1 var)
      recommendations := recsApp mean var }

end DiabetesAI

namespace GlucoseAgent

/-- Message of `app.py` line 43. -/
def highMsg : String := "Blood sugar is high - consider adjusting medication/diet"

/-- Message of `app.py` line 45. -/
def variabilityMsg : String :=
  "High variability detected - try maintaining consistent meal times"

/-- Message of `app.py` line 47. -/
def lowMsg : String := "Blood sugar running low - review medication dosage"

/-- Message of `app.py` line 49 (positive-reinforcement fallback). -/
def goodMsg : String := "Blood sugar control looks good!"

/-- Message of `app.py` line 27 (empty-input short circuit). -/
def noDataMsg : String := "No data available for analysis"

/-- `GlucoseAgent._generate_recommendations(mean, std)` (`app.py` lines
40-50).  The source passes `std = √var`; its test `std > 40` is encoded as
`var > 1600`. -/
def generate_recommendations (mean var : ℚ) : List String :=
  let recommendations :=
    (if mean > 180 then [highMsg] else []) ++
    (if var > 1600 then [variabilityMsg] else []) ++
    (if mean < 70 then [lowMsg] else [])
  if recommendations = [] then [goodMsg] else recommendations

/-- `GlucoseAgent.analyze` (`app.py` lines 25-38). -/
def analyze (readings : List Reading) : AnalysisResult :=
  if readings = [] then
    { risk_level := "unknown", recommendations := [noDataMsg] }
  else
    let values := selectedValues readings
    let mean := listMean values
    let var := popVariance values
    { risk_level :=
        if mean > 180 then "high" else if mean > 140 then "moderate" else "low"
      mean := some (round1 mean)
      std := some (stdRound1 var)
      recommendations := generate_recommendations mean var }

end GlucoseAgent

/-- The window filter of `show_analytics` (`App.py` lines 269-277, identical
in `app.py` lines 289-297): `Last 7 Days` keeps readings with
`timestamp >= now - 7 days`, `Last 30 Days` analogously, and any other
`time_range` value (in particular `All Time`) leaves the frame untouched. -/
def windowFilter (readings : List Reading) (time_range : String) (now : Int) :
    List Reading :=
  if time_range = "Last 7 Days" then
    readings.filter (fun r => decide (now - 7 * 86400 ≤ r.timestamp))
  else if time_range = "Last 30 Days" then
    readings.filter (fun r => decide (now - 30 * 86400 ≤ r.timestamp))
  else
    readings

/-- The Summary Statistics block of `show_analytics` (`App.py` lines
298-308): mean, standard deviation (pandas `ddof = 1`; carried as its square
`svar`), minimum and maximum of the filtered value column. -/
structure TrendStats where
  count : Nat
  mean : ℚ
  svar : ℚ
  low : Option ℚ
  high : Option ℚ
  deriving Repr, DecidableEq

/-- Statistics over a (window-filtered) list of readings, as computed by the
Summary Statistics block of `show_analytics`. -/
def trendStats (readings : List Reading) : TrendStats :=
  let values := readings.map (fun r => (r.value : ℚ))
  { count := values.length
    mean := listMean values
    svar := sampleVariance values
    low := values.min?
    high := values.max? }

/-- Risk classification exactly as the spec words it: exclusive ordered
precedence, `mean > 180 → high`, `140 < mean ≤ 180 → moderate`, otherwise
`low`.  (Spec-side definition, to be compared with the code's if/elif
chain.) -/
def riskSpec (mean : ℚ) : String :=
  if mean > 180 then "high"
  else if 140 < mean ∧ mean ≤ 180 then "moderate"
  else "low"

/-! Helper lemmas about the numeric encodings: `roundEven`/`round1` really
round to the nearest (multiple of a tenth), `ratFloorSqrt` really is the
floor of the square root, and `stdRound1 v` really is within one twentieth
of `√v` and a multiple of a tenth. -/

theorem roundEven_abs_le (y : ℚ) : |(roundEven y : ℚ) - y| ≤ 1/2 := by
  have h1 : (⌊y⌋ : ℚ) ≤ y := Int.floor_le y
  have h2 : y < ⌊y⌋ + 1 := Int.lt_floor_add_one y
  unfold roundEven
  split_ifs with ha hb hc <;> push_cast <;> rw [abs_le] <;> constructor <;> linarith

theorem round1_tenth (x : ℚ) : ∃ k : ℤ, round1 x = (k : ℚ) / 10 :=
  ⟨roundEven (10 * x), rfl⟩

theorem round1_abs_le (x : ℚ) : |round1 x - x| ≤ 1/20 := by
  have h := roundEven_abs_le (10 * x)
  unfold round1
  have heq : (roundEven (10 * x) : ℚ) / 10 - x = ((roundEven (10 * x) : ℚ) - 10 * x) / 10 := by
    ring
  rw [heq, abs_div, abs_of_nonneg (by norm_num : (0:ℚ) ≤ 10)]
  linarith

theorem natDivSqrt_sq_le (p q : ℕ) (hq0 : 0 < q) :
    ((Nat.sqrt (p * q) / q : ℕ) : ℚ) ^ 2 ≤ (p : ℚ) / (q : ℚ) := by
  have hq : (0 : ℚ) < (q : ℚ) := by exact_mod_cast hq0
  rw [le_div_iff₀ hq]
  have hk : (Nat.sqrt (p * q) / q) * q ≤ Nat.sqrt (p * q) := Nat.div_mul_le_self _ _
  have hs1 : (Nat.sqrt (p * q)) ^ 2 ≤ p * q := Nat.sqrt_le' _
  have hcast : ((Nat.sqrt (p * q) / q : ℕ) : ℚ) * (q : ℚ) ≤ ((Nat.sqrt (p * q) : ℕ) : ℚ) := by
    exact_mod_cast hk
  have hcast2 : ((Nat.sqrt (p * q) : ℕ) : ℚ) ^ 2 ≤ (p : ℚ) * (q : ℚ) := by
    exact_mod_cast hs1
  have hsq : ((Nat.sqrt (p * q) / q : ℕ) : ℚ) * (q : ℚ)
        * (((Nat.sqrt (p * q) / q : ℕ) : ℚ) * (q : ℚ))
      ≤ ((Nat.sqrt (p * q) : ℕ) : ℚ) * ((Nat.sqrt (p * q) : ℕ) : ℚ) :=
    mul_le_mul hcast hcast (by positivity) (Nat.cast_nonneg _)
  nlinarith [hsq, hcast2, hq]

theorem lt_natDivSqrt_succ_sq (p q : ℕ) (hq0 : 0 < q) :
    (p : ℚ) / (q : ℚ) < (((Nat.sqrt (p * q) / q : ℕ) : ℚ) + 1) ^ 2 := by
  have hq : (0 : ℚ) < (q : ℚ) := by exact_mod_cast hq0
  rw [div_lt_iff₀ hq]
  have hub : Nat.sqrt (p * q) + 1 ≤ (Nat.sqrt (p * q) / q + 1) * q := by
    have hmod := Nat.div_add_mod (Nat.sqrt (p * q)) q
    have hm : Nat.sqrt (p * q) % q < q := Nat.mod_lt _ hq0
    have h1 : (Nat.sqrt (p * q) / q + 1) * q = q * (Nat.sqrt (p * q) / q) + q := by ring
    linarith [hmod, hm, h1]
  have hs2 : p * q < (Nat.sqrt (p * q) + 1) ^ 2 := Nat.lt_succ_sqrt' _
  have hcast : ((Nat.sqrt (p * q) : ℕ) : ℚ) + 1
      ≤ (((Nat.sqrt (p * q) / q : ℕ) : ℚ) + 1) * (q : ℚ) := by exact_mod_cast hub
  have hcast2 : (p : ℚ) * (q : ℚ) < (((Nat.sqrt (p * q) : ℕ) : ℚ) + 1) ^ 2 := by
    exact_mod_cast hs2
  have hsq : (((Nat.sqrt (p * q) : ℕ) : ℚ) + 1) * (((Nat.sqrt (p * q) : ℕ) : ℚ) + 1)
      ≤ ((((Nat.sqrt (p * q) / q : ℕ) : ℚ) + 1) * (q : ℚ))
        * (((((Nat.sqrt (p * q) / q : ℕ) : ℚ) + 1) * (q : ℚ))) :=
    mul_le_mul hcast hcast (by positivity) (by positivity)
  nlinarith [hsq, hcast2, hq]

theorem ratFloorSqrt_sq_le {x : ℚ} (hx : 0 ≤ x) : ((ratFloorSqrt x : ℚ)) ^ 2 ≤ x := by
  have hq0 : 0 < x.den := x.den_pos
  have hnum : ((x.num.toNat : ℤ)) = x.num := Int.toNat_of_nonneg (Rat.num_nonneg.mpr hx)
  have hx' : x = (x.num.toNat : ℚ) / (x.den : ℚ) := by
    rw [show ((x.num.toNat : ℚ)) = (x.num : ℚ) by exact_mod_cast hnum]
    exact (Rat.num_div_den x).symm
  calc ((ratFloorSqrt x : ℚ)) ^ 2
      = ((Nat.sqrt (x.num.toNat * x.den) / x.den : ℕ) : ℚ) ^ 2 := rfl
    _ ≤ (x.num.toNat : ℚ) / (x.den : ℚ) := natDivSqrt_sq_le _ _ hq0
    _ = x := hx'.symm

theorem lt_ratFloorSqrt_succ {x : ℚ} (hx : 0 ≤ x) : x < ((ratFloorSqrt x : ℚ) + 1) ^ 2 := by
  have hq0 : 0 < x.den := x.den_pos
  have hnum : ((x.num.toNat : ℤ)) = x.num := Int.toNat_of_nonneg (Rat.num_nonneg.mpr hx)
  have hx' : x = (x.num.toNat : ℚ) / (x.den : ℚ) := by
    rw [show ((x.num.toNat : ℚ)) = (x.num : ℚ) by exact_mod_cast hnum]
    exact (Rat.num_div_den x).symm
  calc x = (x.num.toNat : ℚ) / (x.den : ℚ) := hx'
    _ < (((Nat.sqrt (x.num.toNat * x.den) / x.den : ℕ) : ℚ) + 1) ^ 2 :=
        lt_natDivSqrt_succ_sq _ _ hq0
    _ = ((ratFloorSqrt x : ℚ) + 1) ^ 2 := rfl

theorem ratFloorSqrt_le_sqrt {x : ℚ} (hx : 0 ≤ x) :
    (ratFloorSqrt x : ℝ) ≤ Real.sqrt (x : ℝ) := by
  have h : ((ratFloorSqrt x : ℝ)) ^ 2 ≤ (x : ℝ) := by exact_mod_cast ratFloorSqrt_sq_le hx
  rw [Real.le_sqrt (by positivity) (by exact_mod_cast hx)]
  exact h

theorem sqrt_lt_ratFloorSqrt_succ {x : ℚ} (hx : 0 ≤ x) :
    Real.sqrt (x : ℝ) < (ratFloorSqrt x : ℝ) + 1 := by
  have h : (x : ℝ) < ((ratFloorSqrt x : ℝ) + 1) ^ 2 := by exact_mod_cast lt_ratFloorSqrt_succ hx
  exact (Real.sqrt_lt' (by positivity)).mpr h

theorem stdRound1_tenth (v : ℚ) : ∃ k : ℕ, stdRound1 v = (k : ℚ) / 10 := by
  simp only [stdRound1]
  split_ifs with h1 h2 h3
  · exact ⟨ratFloorSqrt (100 * v), rfl⟩
  · exact ⟨ratFloorSqrt (100 * v) + 1, by push_cast; ring⟩
  · exact ⟨ratFloorSqrt (100 * v), rfl⟩
  · exact ⟨ratFloorSqrt (100 * v) + 1, by push_cast; ring⟩

theorem stdRound1_abs_le {v : ℚ} (hv : 0 ≤ v) :
    |((stdRound1 v : ℚ) : ℝ) - Real.sqrt (v : ℝ)| ≤ 1/20 := by
  have h100 : (0 : ℚ) ≤ 100 * v := by positivity
  have hl := ratFloorSqrt_le_sqrt h100
  have hu := sqrt_lt_ratFloorSqrt_succ h100
  have hsq : Real.sqrt ((100 * v : ℚ) : ℝ) = 10 * Real.sqrt (v : ℝ) := by
    push_cast
    rw [show ((100 : ℝ) * (v : ℝ)) = 10 ^ 2 * (v : ℝ) by norm_num,
      Real.sqrt_mul (by positivity) _, Real.sqrt_sq (by norm_num)]
  rw [hsq] at hl hu
  have hynn : (0 : ℝ) ≤ Real.sqrt (v : ℝ) := Real.sqrt_nonneg _
  have hy2 : (10 * Real.sqrt (v : ℝ)) ^ 2 = 100 * (v : ℝ) := by
    rw [mul_pow, Real.sq_sqrt (by exact_mod_cast hv)]; norm_num
  simp only [stdRound1]
  split_ifs with h1 h2 h3
  · have hc : 400 * (v : ℝ) < (2 * (ratFloorSqrt (100 * v) : ℝ) + 1) ^ 2 := by
      exact_mod_cast h1
    have hyn : 2 * (10 * Real.sqrt (v : ℝ)) < 2 * (ratFloorSqrt (100 * v) : ℝ) + 1 := by
      apply lt_of_pow_lt_pow_left₀ 2 (by positivity)
      calc (2 * (10 * Real.sqrt (v : ℝ))) ^ 2 = 4 * (10 * Real.sqrt (v : ℝ)) ^ 2 := by ring
        _ = 400 * (v : ℝ) := by rw [hy2]; ring
        _ < (2 * (ratFloorSqrt (100 * v) : ℝ) + 1) ^ 2 := hc
    rw [abs_le]
    push_cast
    constructor <;> linarith
  · have hc : (2 * (ratFloorSqrt (100 * v) : ℝ) + 1) ^ 2 < 400 * (v : ℝ) := by
      exact_mod_cast h2
    have hyn : 2 * (ratFloorSqrt (100 * v) : ℝ) + 1 < 2 * (10 * Real.sqrt (v : ℝ)) := by
      apply lt_of_pow_lt_pow_left₀ 2 (by positivity)
      calc (2 * (ratFloorSqrt (100 * v) : ℝ) + 1) ^ 2 < 400 * (v : ℝ) := hc
        _ = 4 * (10 * Real.sqrt (v : ℝ)) ^ 2 := by rw [hy2]; ring
        _ = (2 * (10 * Real.sqrt (v : ℝ))) ^ 2 := by ring
    rw [abs_le]
    push_cast
    constructor <;> linarith
  all_goals
    have hceq : 400 * (v : ℝ) = (2 * (ratFloorSqrt (100 * v) : ℝ) + 1) ^ 2 := by
      have hq : 400 * v = ((2 * ratFloorSqrt (100 * v) + 1 : ℕ) : ℚ) ^ 2 := le_antisymm
        (not_lt.mp h2) (not_lt.mp h1)
      exact_mod_cast hq
    have hyeq : 2 * (10 * Real.sqrt (v : ℝ)) = 2 * (ratFloorSqrt (100 * v) : ℝ) + 1 := by
      have hpow : (2 * (10 * Real.sqrt (v : ℝ))) ^ 2
          = (2 * (ratFloorSqrt (100 * v) : ℝ) + 1) ^ 2 := by
        calc (2 * (10 * Real.sqrt (v : ℝ))) ^ 2 = 4 * (10 * Real.sqrt (v : ℝ)) ^ 2 := by ring
          _ = 400 * (v : ℝ) := by rw [hy2]; ring
          _ = (2 * (ratFloorSqrt (100 * v) : ℝ) + 1) ^ 2 := hceq
      exact le_antisymm
        (le_of_pow_le_pow_left₀ two_ne_zero (by positivity) (le_of_eq hpow))
        (le_of_pow_le_pow_left₀ two_ne_zero (by positivity) (le_of_eq hpow.symm))
  · rw [abs_le]
    push_cast
    constructor <;> linarith
  · rw [abs_le]
    push_cast
    constructor <;> linarith

theorem popVariance_nonneg (values : List ℚ) : 0 ≤ popVariance values := by
  unfold popVariance
  apply div_nonneg
  · apply List.sum_nonneg
    intro x hx
    simp only [List.mem_map] at hx
    obtain ⟨a, _, rfl⟩ := hx
    positivity
  · positivity

theorem forty_lt_sqrt_iff (v : ℚ) : 40 < Real.sqrt (v : ℝ) ↔ 1600 < v := by
  rw [Real.lt_sqrt (by norm_num : (0:ℝ) ≤ 40)]
  constructor
  · intro h
    have h' : (1600 : ℝ) < (v : ℝ) := by nlinarith
    exact_mod_cast h'
  · intro h
    have h' : (1600 : ℝ) < (v : ℝ) := by exact_mod_cast h
    nlinarith

/-! Unfolding lemmas: what each analyzer returns on non-empty input. -/

theorem appAnalyze_eq {rs : List Reading} (h : rs ≠ []) :
    DiabetesAI.analyze_glucose_pattern rs =
      { risk_level :=
          if listMean (selectedValues rs) > 180 then "high"
          else if listMean (selectedValues rs) > 140 then "moderate" else "low"
        mean := some (round1 (listMean (selectedValues rs)))
        std := some (stdRound1 (popVariance (selectedValues rs)))
        recommendations :=
          DiabetesAI.recsApp (listMean (selectedValues rs)) (popVariance (selectedValues rs)) } := by
  unfold DiabetesAI.analyze_glucose_pattern
  rw [if_neg h]

theorem agentAnalyze_eq {rs : List Reading} (h : rs ≠ []) :
    GlucoseAgent.analyze rs =
      { risk_level :=
          if listMean (selectedValues rs) > 180 then "high"
          else if listMean (selectedValues rs) > 140 then "moderate" else "low"
        mean := some (round1 (listMean (selectedValues rs)))
        std := some (stdRound1 (popVariance (selectedValues rs)))
        recommendations :=
          GlucoseAgent.generate_recommendations (listMean (selectedValues rs))
            (popVariance (selectedValues rs)) } := by
  unfold GlucoseAgent.analyze
  rw [if_neg h]

/-! Concrete reading sequences used by the witnesses: scenario A
(`[150, 160, 155]`) and scenario B (`[200, 210, 190]`) from the spec. -/

def exA : List Reading :=
  [{ timestamp := 0, value := 150 }, { timestamp := 60, value := 160 },
   { timestamp := 120, value := 155 }]

def exB : List Reading :=
  [{ timestamp := 0, value := 200 }, { timestamp := 60, value := 210 },
   { timestamp := 120, value := 190 }]

/-- C1: for every non-empty input, both analyzers classify risk by the
spec's exclusive ordered precedence (`riskSpec`) applied to the unrounded
mean of the tail-window values; and whenever that mean exceeds 180 the
risk level is `high` and the meal-plan-review recommendation is present. -/
theorem claim_C1_risk_classification (rs : List Reading) (h : rs ≠ []) :
    (DiabetesAI.analyze_glucose_pattern rs).risk_level
        = riskSpec (listMean (selectedValues rs))
    ∧ (GlucoseAgent.analyze rs).risk_level = riskSpec (listMean (selectedValues rs))
    ∧ (180 < listMean (selectedValues rs) →
        (DiabetesAI.analyze_glucose_pattern rs).risk_level = "high"
        ∧ DiabetesAI.mealPlanMsg ∈ (DiabetesAI.analyze_glucose_pattern rs).recommendations) := by
  rw [appAnalyze_eq h, agentAnalyze_eq h]
  refine ⟨?_, ?_, ?_⟩
  · by_cases h1 : (180:ℚ) < listMean (selectedValues rs)
    · simp [riskSpec, h1]
    · by_cases h2 : (140:ℚ) < listMean (selectedValues rs)
      · simp [riskSpec, h1, h2, not_lt.mp h1]
      · simp [riskSpec, h1, h2]
  · by_cases h1 : (180:ℚ) < listMean (selectedValues rs)
    · simp [riskSpec, h1]
    · by_cases h2 : (140:ℚ) < listMean (selectedValues rs)
      · simp [riskSpec, h1, h2, not_lt.mp h1]
      · simp [riskSpec, h1, h2]
  · intro h1
    constructor
    · simp [h1]
    · simp [DiabetesAI.recsApp, h1]

/-- Witness for C1 at scenario B (`[200, 210, 190]`, mean 200 > 180). -/
theorem claim_C1_witness :
    (DiabetesAI.analyze_glucose_pattern exB).risk_level = "high"
    ∧ DiabetesAI.mealPlanMsg ∈ (DiabetesAI.analyze_glucose_pattern exB).recommendations :=
  (claim_C1_risk_classification exB (by decide)).2.2
    (by norm_num [selectedValues, lastN, exB, listMean])

/-- C2 counterexample: the claim fixes the empty-input recommendation list
to `["Not enough data for analysis"]`, but the `GlucoseAgent.analyze`
variant (`app.py` line 27) returns `["No data available for analysis"]`. -/
theorem claim_C2_counterexample :
    (GlucoseAgent.analyze []).risk_level = "unknown"
    ∧ (GlucoseAgent.analyze []).recommendations = ["No data available for analysis"]
    ∧ (GlucoseAgent.analyze []).recommendations ≠ ["Not enough data for analysis"] := by
  refine ⟨rfl, rfl, ?_⟩
  decide

/-- C2 (amended): for both variants, `risk_level = "unknown"` iff the input
is empty; on empty input `mean`/`std` are absent, `DiabetesAI` answers
exactly `["Not enough data for analysis"]` and `GlucoseAgent` answers
exactly `["No data available for analysis"]`. -/
theorem claim_C2_empty_behavior :
    (∀ rs : List Reading,
      ((DiabetesAI.analyze_glucose_pattern rs).risk_level = "unknown" ↔ rs = []))
    ∧ (∀ rs : List Reading, ((GlucoseAgent.analyze rs).risk_level = "unknown" ↔ rs = []))
    ∧ DiabetesAI.analyze_glucose_pattern [] =
        { risk_level := "unknown", mean := none, std := none,
          recommendations := ["Not enough data for analysis"] }
    ∧ GlucoseAgent.analyze [] =
        { risk_level := "unknown", mean := none, std := none,
          recommendations := ["No data available for analysis"] } := by
  refine ⟨?_, ?_, rfl, rfl⟩
  · intro rs
    constructor
    · intro hrisk
      by_contra hne
      rw [appAnalyze_eq hne] at hrisk
      simp only [AnalysisResult.mk.injEq] at hrisk
      split_ifs at hrisk <;> exact absurd hrisk (by decide)
    · intro hempty
      subst hempty
      rfl
  · intro rs
    constructor
    · intro hrisk
      by_contra hne
      rw [agentAnalyze_eq hne] at hrisk
      simp only [AnalysisResult.mk.injEq] at hrisk
      split_ifs at hrisk <;> exact absurd hrisk (by decide)
    · intro hempty
      subst hempty
      rfl

/-- Witness for C2's amended claim: a non-empty input is never classified
`unknown`. -/
theorem claim_C2_witness :
    (DiabetesAI.analyze_glucose_pattern exA).risk_level ≠ "unknown" :=
  fun hc => (by decide : exA ≠ []) ((claim_C2_empty_behavior.1 exA).mp hc)

/-- Characterisation used to evaluate `ratFloorSqrt` at concrete points:
any `n` squeezed between the same squares is the floor of the root. -/
theorem ratFloorSqrt_eq {x : ℚ} {n : ℕ} (hx : 0 ≤ x)
    (h1 : (n : ℚ) ^ 2 ≤ x) (h2 : x < ((n : ℚ) + 1) ^ 2) : ratFloorSqrt x = n := by
  have ha := ratFloorSqrt_sq_le hx
  have hb := lt_ratFloorSqrt_succ hx
  have hkn : ratFloorSqrt x < n + 1 := by
    by_contra hc
    push_neg at hc
    have hc' : ((n : ℚ) + 1) ≤ (ratFloorSqrt x : ℚ) := by exact_mod_cast hc
    nlinarith [ha, h2, Nat.cast_nonneg (α := ℚ) n]
  have hnk : n < ratFloorSqrt x + 1 := by
    by_contra hc
    push_neg at hc
    have hc' : ((ratFloorSqrt x : ℚ) + 1) ≤ (n : ℚ) := by exact_mod_cast hc
    nlinarith [h1, hb, Nat.cast_nonneg (α := ℚ) (ratFloorSqrt x)]
  omega

/-- Rule-by-rule description of `DiabetesAI`'s recommendation block:
membership of each message is equivalent to its trigger condition, the
fallback is the whole output iff no trigger fires, and when something fires
the output is the ordered concatenation of the fired messages. -/
theorem recsApp_spec (m v : ℚ) :
    (DiabetesAI.mealPlanMsg ∈ DiabetesAI.recsApp m v ↔ 180 < m)
    ∧ (DiabetesAI.variabilityMsg ∈ DiabetesAI.recsApp m v ↔ 1600 < v)
    ∧ (DiabetesAI.lowSugarMsg ∈ DiabetesAI.recsApp m v ↔ m < 70)
    ∧ (DiabetesAI.recsApp m v = [DiabetesAI.goodControlMsg]
        ↔ ¬(180 < m ∨ 1600 < v ∨ m < 70))
    ∧ ((180 < m ∨ 1600 < v ∨ m < 70) →
        DiabetesAI.recsApp m v =
          (if 180 < m then [DiabetesAI.mealPlanMsg] else []) ++
          (if 1600 < v then [DiabetesAI.variabilityMsg] else []) ++
          (if m < 70 then [DiabetesAI.lowSugarMsg] else [])) := by
  by_cases h1 : (180 : ℚ) < m <;> by_cases h2 : (1600 : ℚ) < v <;> by_cases h3 : m < 70 <;>
    simp [DiabetesAI.recsApp, h1, h2, h3, DiabetesAI.mealPlanMsg, DiabetesAI.variabilityMsg,
      DiabetesAI.lowSugarMsg, DiabetesAI.goodControlMsg]

/-- Rule-by-rule description of `GlucoseAgent._generate_recommendations`,
mirroring `recsApp_spec` with this variant's message texts. -/
theorem generate_recommendations_spec (m v : ℚ) :
    (GlucoseAgent.highMsg ∈ GlucoseAgent.generate_recommendations m v ↔ 180 < m)
    ∧ (GlucoseAgent.variabilityMsg ∈ GlucoseAgent.generate_recommendations m v ↔ 1600 < v)
    ∧ (GlucoseAgent.lowMsg ∈ GlucoseAgent.generate_recommendations m v ↔ m < 70)
    ∧ (GlucoseAgent.generate_recommendations m v = [GlucoseAgent.goodMsg]
        ↔ ¬(180 < m ∨ 1600 < v ∨ m < 70))
    ∧ ((180 < m ∨ 1600 < v ∨ m < 70) →
        GlucoseAgent.generate_recommendations m v =
          (if 180 < m then [GlucoseAgent.highMsg] else []) ++
          (if 1600 < v then [GlucoseAgent.variabilityMsg] else []) ++
          (if m < 70 then [GlucoseAgent.lowMsg] else [])) := by
  by_cases h1 : (180 : ℚ) < m <;> by_cases h2 : (1600 : ℚ) < v <;> by_cases h3 : m < 70 <;>
    simp [GlucoseAgent.generate_recommendations, h1, h2, h3, GlucoseAgent.highMsg,
      GlucoseAgent.variabilityMsg, GlucoseAgent.lowMsg, GlucoseAgent.goodMsg]

/-- C3: for every non-empty input, in both variants each trigger rule
(`mean > 180`, `std > 40` i.e. `variance > 1600`, `mean < 70`, all on
unrounded values) contributes its message exactly when its condition holds,
in that fixed order, and the output is exactly the single fallback message
iff no condition holds; `variance > 1600` is equivalent to `√variance > 40`. -/
theorem claim_C3_recommendation_rules (rs : List Reading) (h : rs ≠ []) :
    (DiabetesAI.mealPlanMsg ∈ (DiabetesAI.analyze_glucose_pattern rs).recommendations
        ↔ 180 < listMean (selectedValues rs))
    ∧ (DiabetesAI.variabilityMsg ∈ (DiabetesAI.analyze_glucose_pattern rs).recommendations
        ↔ 1600 < popVariance (selectedValues rs))
    ∧ (DiabetesAI.lowSugarMsg ∈ (DiabetesAI.analyze_glucose_pattern rs).recommendations
        ↔ listMean (selectedValues rs) < 70)
    ∧ ((DiabetesAI.analyze_glucose_pattern rs).recommendations = [DiabetesAI.goodControlMsg]
        ↔ ¬(180 < listMean (selectedValues rs) ∨ 1600 < popVariance (selectedValues rs)
            ∨ listMean (selectedValues rs) < 70))
    ∧ ((180 < listMean (selectedValues rs) ∨ 1600 < popVariance (selectedValues rs)
          ∨ listMean (selectedValues rs) < 70) →
        (DiabetesAI.analyze_glucose_pattern rs).recommendations =
          (if 180 < listMean (selectedValues rs) then [DiabetesAI.mealPlanMsg] else []) ++
          (if 1600 < popVariance (selectedValues rs) then [DiabetesAI.variabilityMsg] else []) ++
          (if listMean (selectedValues rs) < 70 then [DiabetesAI.lowSugarMsg] else []))
    ∧ (GlucoseAgent.highMsg ∈ (GlucoseAgent.analyze rs).recommendations
        ↔ 180 < listMean (selectedValues rs))
    ∧ (GlucoseAgent.variabilityMsg ∈ (GlucoseAgent.analyze rs).recommendations
        ↔ 1600 < popVariance (selectedValues rs))
    ∧ (GlucoseAgent.lowMsg ∈ (GlucoseAgent.analyze rs).recommendations
        ↔ listMean (selectedValues rs) < 70)
    ∧ ((GlucoseAgent.analyze rs).recommendations = [GlucoseAgent.goodMsg]
        ↔ ¬(180 < listMean (selectedValues rs) ∨ 1600 < popVariance (selectedValues rs)
            ∨ listMean (selectedValues rs) < 70))
    ∧ ((180 < listMean (selectedValues rs) ∨ 1600 < popVariance (selectedValues rs)
          ∨ listMean (selectedValues rs) < 70) →
        (GlucoseAgent.analyze rs).recommendations =
          (if 180 < listMean (selectedValues rs) then [GlucoseAgent.highMsg] else []) ++
          (if 1600 < popVariance (selectedValues rs) then [GlucoseAgent.variabilityMsg] else []) ++
          (if listMean (selectedValues rs) < 70 then [GlucoseAgent.lowMsg] else []))
    ∧ (1600 < popVariance (selectedValues rs)
        ↔ 40 < Real.sqrt ((popVariance (selectedValues rs) : ℚ) : ℝ)) := by
  rw [appAnalyze_eq h, agentAnalyze_eq h]
  obtain ⟨a1, a2, a3, a4, a5⟩ :=
    recsApp_spec (listMean (selectedValues rs)) (popVariance (selectedValues rs))
  obtain ⟨b1, b2, b3, b4, b5⟩ :=
    generate_recommendations_spec (listMean (selectedValues rs)) (popVariance (selectedValues rs))
  exact ⟨a1, a2, a3, a4, a5, b1, b2, b3, b4, b5, (forty_lt_sqrt_iff _).symm⟩

/-- Witness for C3 at scenario A (`[150, 160, 155]`: mean 155, variance
50/3, no trigger fires, so both variants emit exactly their fallback). -/
theorem claim_C3_witness :
    (DiabetesAI.analyze_glucose_pattern exA).recommendations = [DiabetesAI.goodControlMsg]
    ∧ (GlucoseAgent.analyze exA).recommendations = [GlucoseAgent.goodMsg] := by
  obtain ⟨-, -, -, h4, -, -, -, -, h9, -, -⟩ := claim_C3_recommendation_rules exA (by decide)
  have hnone : ¬(180 < listMean (selectedValues exA) ∨ 1600 < popVariance (selectedValues exA)
      ∨ listMean (selectedValues exA) < 70) := by
    norm_num [listMean, popVariance, selectedValues, lastN, exA]
  exact ⟨h4.mpr hnone, h9.mpr hnone⟩

/-- Concrete input refuting C4: two readings with values 100 and 200. -/
def exC4 : List Reading :=
  [{ timestamp := 0, value := 100 }, { timestamp := 0, value := 200 }]

/-- C4: at input values `[100, 200]` the Trend Aggregator's summary std is
`√5000` (pandas `ddof = 1`, divide by `N - 1`), while the population
convention the claim asserts gives `√2500 = 50`, which is what the Pattern
Analyzer reports; `√5000 ≠ 50`, so the two components do not share the
population convention. -/
theorem claim_C4_code_eval :
    (trendStats (windowFilter exC4 "All Time" 0)).svar = 5000
    ∧ popVariance (exC4.map (fun r => (r.value : ℚ))) = 2500
    ∧ (DiabetesAI.analyze_glucose_pattern exC4).std = some 50
    ∧ Real.sqrt ((2500 : ℚ) : ℝ) = 50
    ∧ Real.sqrt ((5000 : ℚ) : ℝ) ≠ 50 := by
  have hwf : windowFilter exC4 "All Time" 0 = exC4 := rfl
  refine ⟨?_, ?_, ?_, ?_, ?_⟩
  · rw [hwf]
    norm_num [trendStats, sampleVariance, listMean, exC4]
  · norm_num [popVariance, listMean, exC4]
  · rw [appAnalyze_eq (by decide)]
    have hv : popVariance (selectedValues exC4) = 2500 := by
      norm_num [popVariance, listMean, selectedValues, lastN, exC4]
    have hrf : ratFloorSqrt 250000 = 500 := by
      apply ratFloorSqrt_eq <;> norm_num
    simp only [hv]
    norm_num [stdRound1, hrf]
  · rw [show ((2500 : ℚ) : ℝ) = 50 ^ 2 by norm_num, Real.sqrt_sq (by norm_num : (0:ℝ) ≤ 50)]
  · intro hc
    have h5 : ((5000 : ℚ) : ℝ) = 5000 := by norm_num
    rw [h5] at hc
    have hsq := Real.sq_sqrt (show (0:ℝ) ≤ 5000 by norm_num)
    rw [hc] at hsq
    norm_num at hsq

/-- Concrete input refuting C5: one reading far older than every window. -/
def exC5 : List Reading := [{ timestamp := 0, value := 120 }]

/-- C5 counterexample: with an unrecognized window value `"bogus"` the
window filter is not rejected — it silently keeps all readings (and hence
computes statistics over all of them, exactly as for `All Time`), even
readings the recognized windows would drop. -/
theorem claim_C5_counterexample :
    windowFilter exC5 "bogus" 10000000 = exC5
    ∧ trendStats (windowFilter exC5 "bogus" 10000000) = trendStats exC5
    ∧ windowFilter exC5 "Last 7 Days" 10000000 = []
    ∧ windowFilter exC5 "Last 30 Days" 10000000 = [] := by
  refine ⟨rfl, rfl, ?_, ?_⟩ <;> rfl

/-- C5 (amended): any window value other than the two recognized bounded
windows — in particular any unrecognized value — silently leaves the
reading list unfiltered, so statistics are computed over all readings. -/
theorem claim_C5_silent_default (rs : List Reading) (w : String) (now : Int)
    (h7 : w ≠ "Last 7 Days") (h30 : w ≠ "Last 30 Days") :
    windowFilter rs w now = rs ∧ trendStats (windowFilter rs w now) = trendStats rs := by
  unfold windowFilter
  rw [if_neg h7, if_neg h30]
  exact ⟨rfl, rfl⟩

/-- Witness for C5's amended claim at the window value `"bogus"`. -/
theorem claim_C5_witness :
    windowFilter exC5 "bogus" 0 = exC5
    ∧ trendStats (windowFilter exC5 "bogus" 0) = trendStats exC5 :=
  claim_C5_silent_default exC5 "bogus" 0 (by decide) (by decide)

/-- C6: the analyzers' statistics are computed over at most the last 10
readings: when the input splits as a prefix plus a 10-element suffix the
selected values are exactly that suffix's values, when it has at most 10
readings all of them are selected, and on non-empty input the reported
mean/std are derived from exactly those selected values. -/
theorem claim_C6_tail_window (rs : List Reading) :
    (rs.length ≤ 10 → selectedValues rs = rs.map (fun r => (r.value : ℚ)))
    ∧ (∀ ys zs : List Reading, rs = ys ++ zs → zs.length = 10 →
        selectedValues rs = zs.map (fun r => (r.value : ℚ)))
    ∧ (rs ≠ [] →
        (DiabetesAI.analyze_glucose_pattern rs).mean
            = some (round1 (listMean (selectedValues rs)))
        ∧ (DiabetesAI.analyze_glucose_pattern rs).std
            = some (stdRound1 (popVariance (selectedValues rs)))) := by
  refine ⟨?_, ?_, ?_⟩
  · intro hlen
    unfold selectedValues lastN
    rw [Nat.sub_eq_zero_of_le hlen, List.drop_zero]
  · intro ys zs hsplit hten
    subst hsplit
    unfold selectedValues lastN
    rw [List.length_append, hten, Nat.add_sub_cancel, List.drop_left]
  · intro h
    rw [appAnalyze_eq h]
    exact ⟨rfl, rfl⟩

/-- Twelve concrete readings: a 2-element prefix that must be discarded and
the 10-element suffix that must be kept. -/
def exC6pre : List Reading :=
  [{ timestamp := 0, value := 480 }, { timestamp := 1, value := 490 }]

/-- The 10-element suffix of the C6 witness input. -/
def exC6suf : List Reading :=
  [{ timestamp := 2, value := 101 }, { timestamp := 3, value := 102 },
   { timestamp := 4, value := 103 }, { timestamp := 5, value := 104 },
   { timestamp := 6, value := 105 }, { timestamp := 7, value := 106 },
   { timestamp := 8, value := 107 }, { timestamp := 9, value := 108 },
   { timestamp := 10, value := 109 }, { timestamp := 11, value := 110 }]

/-- Witness for C6: on a 12-reading input, exactly the last 10 values are
selected. -/
theorem claim_C6_witness :
    selectedValues (exC6pre ++ exC6suf) = exC6suf.map (fun r => (r.value : ℚ)) :=
  (claim_C6_tail_window (exC6pre ++ exC6suf)).2.1 exC6pre exC6suf rfl (by decide)

/-- C7: window filtering is inclusive at the lower bound and unbounded
above: a reading with timestamp exactly `now - 7 days` (resp. `now - 30
days`) is kept by the 7-day (resp. 30-day) window, and a reading with a
timestamp after `now` is kept by both. -/
theorem claim_C7_window_bounds (rs : List Reading) (now : Int) (r : Reading) (hr : r ∈ rs) :
    (r.timestamp = now - 7 * 86400 → r ∈ windowFilter rs "Last 7 Days" now)
    ∧ (r.timestamp = now - 30 * 86400 → r ∈ windowFilter rs "Last 30 Days" now)
    ∧ (now < r.timestamp →
        r ∈ windowFilter rs "Last 7 Days" now ∧ r ∈ windowFilter rs "Last 30 Days" now) := by
  have h7 : windowFilter rs "Last 7 Days" now
      = rs.filter (fun x => decide (now - 7 * 86400 ≤ x.timestamp)) := rfl
  have h30 : windowFilter rs "Last 30 Days" now
      = rs.filter (fun x => decide (now - 30 * 86400 ≤ x.timestamp)) := rfl
  refine ⟨?_, ?_, ?_⟩
  · intro ht
    rw [h7, List.mem_filter]
    refine ⟨hr, ?_⟩
    simp only [decide_eq_true_eq]
    omega
  · intro ht
    rw [h30, List.mem_filter]
    refine ⟨hr, ?_⟩
    simp only [decide_eq_true_eq]
    omega
  · intro ht
    constructor
    · rw [h7, List.mem_filter]
      refine ⟨hr, ?_⟩
      simp only [decide_eq_true_eq]
      omega
    · rw [h30, List.mem_filter]
      refine ⟨hr, ?_⟩
      simp only [decide_eq_true_eq]
      omega

/-- A reading timestamped exactly seven days before `now = 1000000`. -/
def exC7 : Reading := { timestamp := 1000000 - 7 * 86400, value := 100 }

/-- Witness for C7: the exact-boundary reading is included in the 7-day
window. -/
theorem claim_C7_witness : exC7 ∈ windowFilter [exC7] "Last 7 Days" 1000000 :=
  (claim_C7_window_bounds [exC7] 1000000 exC7 (by decide)).1 (by decide)

/-- C8: for any fixed `now`, the 7-day window's readings are among the
30-day window's, which are among the all-time ones; and the all-time
"window" is the identity, so its summary statistics coincide with the
statistics of the full unwindowed reading list. -/
theorem claim_C8_window_monotone (rs : List Reading) (now : Int) :
    (∀ r, r ∈ windowFilter rs "Last 7 Days" now → r ∈ windowFilter rs "Last 30 Days" now)
    ∧ (∀ r, r ∈ windowFilter rs "Last 30 Days" now → r ∈ windowFilter rs "All Time" now)
    ∧ windowFilter rs "All Time" now = rs
    ∧ trendStats (windowFilter rs "All Time" now) = trendStats rs := by
  have h7 : windowFilter rs "Last 7 Days" now
      = rs.filter (fun x => decide (now - 7 * 86400 ≤ x.timestamp)) := rfl
  have h30 : windowFilter rs "Last 30 Days" now
      = rs.filter (fun x => decide (now - 30 * 86400 ≤ x.timestamp)) := rfl
  have hall : windowFilter rs "All Time" now = rs := rfl
  refine ⟨?_, ?_, hall, by rw [hall]⟩
  · intro r hmem
    rw [h7, List.mem_filter] at hmem
    rw [h30, List.mem_filter]
    refine ⟨hmem.1, ?_⟩
    have hb := hmem.2
    simp only [decide_eq_true_eq] at hb ⊢
    omega
  · intro r hmem
    rw [hall]
    rw [h30, List.mem_filter] at hmem
    exact hmem.1

/-- A fresh reading (one second before `now = 1000000`) for the C8 witness. -/
def exC8 : Reading := { timestamp := 999999, value := 130 }

/-- Witness for C8: a reading kept by the 7-day window is also kept by the
30-day window. -/
theorem claim_C8_witness : exC8 ∈ windowFilter [exC8] "Last 30 Days" 1000000 :=
  (claim_C8_window_monotone [exC8] 1000000).1 exC8 (by decide)

/-- C9: on non-empty input both variants report `mean`/`std` as the exact
statistics rounded to one decimal place (`round1` rounds to a multiple of
one tenth at distance at most 1/20 from the exact mean; `stdRound1` rounds
to a multiple of one tenth at distance at most 1/20 from the exact standard
deviation `√variance`), while the risk level and the recommendations are
computed from the unrounded mean and variance, so rounding never changes
which rules fired or the risk level. -/
theorem claim_C9_rounding (rs : List Reading) (h : rs ≠ []) :
    (DiabetesAI.analyze_glucose_pattern rs).mean
        = some (round1 (listMean (selectedValues rs)))
    ∧ (DiabetesAI.analyze_glucose_pattern rs).std
        = some (stdRound1 (popVariance (selectedValues rs)))
    ∧ (GlucoseAgent.analyze rs).mean = some (round1 (listMean (selectedValues rs)))
    ∧ (GlucoseAgent.analyze rs).std = some (stdRound1 (popVariance (selectedValues rs)))
    ∧ (∃ k : ℤ, round1 (listMean (selectedValues rs)) = (k : ℚ) / 10)
    ∧ |round1 (listMean (selectedValues rs)) - listMean (selectedValues rs)| ≤ 1/20
    ∧ (∃ k : ℕ, stdRound1 (popVariance (selectedValues rs)) = (k : ℚ) / 10)
    ∧ |((stdRound1 (popVariance (selectedValues rs)) : ℚ) : ℝ)
        - Real.sqrt ((popVariance (selectedValues rs) : ℚ) : ℝ)| ≤ 1/20
    ∧ (DiabetesAI.analyze_glucose_pattern rs).risk_level
        = (if listMean (selectedValues rs) > 180 then "high"
           else if listMean (selectedValues rs) > 140 then "moderate" else "low")
    ∧ (DiabetesAI.analyze_glucose_pattern rs).recommendations
        = DiabetesAI.recsApp (listMean (selectedValues rs)) (popVariance (selectedValues rs)) := by
  rw [appAnalyze_eq h, agentAnalyze_eq h]
  exact ⟨rfl, rfl, rfl, rfl, round1_tenth _, round1_abs_le _, stdRound1_tenth _,
    stdRound1_abs_le (popVariance_nonneg _), rfl, rfl⟩

/-- Witness for C9 at scenario A: the reported mean is `155.0` and the
reported std is `4.1` (the 1-decimal roundings of 155 and of `√(50/3)`). -/
theorem claim_C9_witness :
    (DiabetesAI.analyze_glucose_pattern exA).mean = some 155
    ∧ (DiabetesAI.analyze_glucose_pattern exA).std = some (41/10) := by
  have h := claim_C9_rounding exA (by decide)
  have hm : listMean (selectedValues exA) = 155 := by
    norm_num [listMean, selectedValues, lastN, exA]
  have hv : popVariance (selectedValues exA) = 50/3 := by
    norm_num [popVariance, listMean, selectedValues, lastN, exA]
  constructor
  · rw [h.1, hm]
    norm_num [round1, roundEven]
  · rw [h.2.1, hv]
    have hrf : ratFloorSqrt (5000/3) = 40 := by
      apply ratFloorSqrt_eq <;> norm_num
    norm_num [stdRound1, hrf]

/-- C10: the two analyzer variants agree on all numeric outputs: they
return the same risk level on every input, and the same (rounded) mean and
std on every non-empty input. -/
theorem claim_C10_variants_agree (rs : List Reading) :
    (DiabetesAI.analyze_glucose_pattern rs).risk_level = (GlucoseAgent.analyze rs).risk_level
    ∧ (rs ≠ [] →
        (DiabetesAI.analyze_glucose_pattern rs).mean = (GlucoseAgent.analyze rs).mean
        ∧ (DiabetesAI.analyze_glucose_pattern rs).std = (GlucoseAgent.analyze rs).std) := by
  by_cases h : rs = []
  · subst h
    exact ⟨rfl, fun hc => absurd rfl hc⟩
  · rw [appAnalyze_eq h, agentAnalyze_eq h]
    exact ⟨rfl, fun _ => ⟨rfl, rfl⟩⟩

/-- Witness for C10 at scenario B. -/
theorem claim_C10_witness :
    (DiabetesAI.analyze_glucose_pattern exB).mean = (GlucoseAgent.analyze exB).mean
    ∧ (DiabetesAI.analyze_glucose_pattern exB).std = (GlucoseAgent.analyze exB).std :=
  (claim_C10_variants_agree exB).2 (by decide)

end GlucoseEngine
